import Mathlib

/-!
Shallow embedding of the CRUD handlers of the nodejs-swagger-api repository.

The repository has two source files. `main.js` serves a users collection and
an items collection (both in-memory arrays seeded at startup); `index.js`
serves a simpler items collection whose get-by-id and update handlers are
registered at literal paths without an `:id` route parameter.

Modelling conventions:
- An HTTP handler becomes a Lean function from the request data (the raw id
  path segment as a `String`, the JSON body with possibly-missing fields as a
  structure of `Option` fields) and the current store (a `List` of entities)
  to a response and, for mutating handlers, the next store.
- `parseInt(s, 10)` is modelled by `jsParseInt : String → Option Int`, where
  `none` stands for NaN; the strict comparison `u.id === parseInt(...)` is
  `idMatches`, which is false whenever the parse produced NaN.
- JavaScript truthiness of a possibly-missing string field is `truthyStr`
  (false for a missing field and for the empty string); for the integer
  `userStatus` field, `userStatus || 1` is `userStatusOrOne` (absent or 0
  becomes 1).
- `Array.prototype.find` is `List.find?`; mutating the found object in place
  is `updateFirst`; `findIndex` is `findIdxF` (`none` for -1) and
  `splice(i, 1)` is `spliceAt`.
-/

namespace NodeCrud

/-! ### JavaScript-level helpers -/

/-- Value of a run of decimal digit characters. -/
def digitsVal (ds : List Char) : Nat :=
  ds.foldl (fun a c => a * 10 + (c.toNat - 48)) 0

/-- Model of JavaScript `parseInt(s, 10)`: skip leading spaces, read an
optional sign and then the maximal run of leading digits; if there are no
digits the result is NaN, modelled as `none`. -/
def jsParseInt (s : String) : Option Int :=
  match s.toList.dropWhile (fun c => c = ' ') with
  | '-' :: r =>
    let ds := r.takeWhile Char.isDigit
    if ds.isEmpty then none else some (-(digitsVal ds : Int))
  | '+' :: r =>
    let ds := r.takeWhile Char.isDigit
    if ds.isEmpty then none else some ((digitsVal ds : Int))
  | r =>
    let ds := r.takeWhile Char.isDigit
    if ds.isEmpty then none else some ((digitsVal ds : Int))

/-- The comparison `entity.id === parseInt(segment, 10)` used by every lookup:
a NaN on the right (`none`) matches no entity. -/
def idMatches (pid : Option Int) (eid : Int) : Bool :=
  match pid with
  | none => false
  | some n => eid == n

/-- Truthiness of a possibly-missing string body field: `!field` is true in
JavaScript when the field is absent or the empty string. -/
def truthyStr : Option String → Bool
  | none => false
  | some s => s != ""

/-- The expression `userStatus || 1` on a possibly-missing integer field:
absent or `0` (the falsy integer) yields the default `1`. -/
def userStatusOrOne : Option Int → Int
  | none => 1
  | some n => if n == 0 then 1 else n

/-! ### Generic list operations mirroring the array mutations -/

/-- Replace the first element satisfying `p` by `f` of it. This is the effect
on the backing array of mutating, field by field, the object returned by
`Array.prototype.find`. -/
def updateFirst {α : Type} (p : α → Bool) (f : α → α) : List α → List α
  | [] => []
  | x :: xs => if p x then f x :: xs else x :: updateFirst p f xs

/-- Index of the first element satisfying `p`, as `Array.prototype.findIndex`
(`none` standing for -1). -/
def findIdxF {α : Type} (p : α → Bool) : List α → Option Nat
  | [] => none
  | x :: xs => if p x then some 0 else (findIdxF p xs).map (· + 1)

/-- Effect of `array.splice(i, 1)`: remove the element at index `i`, shifting
the subsequent elements left. -/
def spliceAt {α : Type} : List α → Nat → List α
  | [], _ => []
  | _ :: xs, 0 => xs
  | x :: xs, n + 1 => x :: spliceAt xs n

/-! ### Users collection (main.js) -/

/-- A stored user record. -/
structure User where
  id : Int
  username : String
  firstName : String
  lastName : String
  email : String
  password : String
  phone : String
  userStatus : Int
deriving DecidableEq

/-- The JSON body of a user create/update request; every field may be absent. -/
structure UserBody where
  username : Option String
  firstName : Option String
  lastName : Option String
  email : Option String
  password : Option String
  phone : Option String
  userStatus : Option Int
deriving DecidableEq

/-- Response of a user handler: an entity payload or a `{message: ...}` body,
each with its HTTP status code. -/
inductive UserRes where
  | entity (code : Nat) (u : User)
  | msg (code : Nat) (message : String)
deriving DecidableEq

/-- The single seeded user of main.js. -/
def seedUser : User :=
  { id := 10, username := "theUser", firstName := "John", lastName := "James",
    email := "john@email.com", password := "12345", phone := "12345",
    userStatus := 1 }

/-- The seeded users collection of main.js. -/
def usersSeed : List User := [seedUser]

/-- The validation guard of the user POST and PUT handlers:
`!username || !firstName || ... || !phone` negated. -/
def validUserBody (b : UserBody) : Bool :=
  truthyStr b.username && truthyStr b.firstName && truthyStr b.lastName &&
  truthyStr b.email && truthyStr b.password && truthyStr b.phone

/-- The object literal built by POST /api/v1/users from a body, given the
current collection length `n`: `id: users.length + 1`, the destructured
fields, and `userStatus: userStatus || 1`. -/
def mkNewUser (b : UserBody) (n : Nat) : User :=
  { id := (n : Int) + 1,
    username := b.username.getD "", firstName := b.firstName.getD "",
    lastName := b.lastName.getD "", email := b.email.getD "",
    password := b.password.getD "", phone := b.phone.getD "",
    userStatus := userStatusOrOne b.userStatus }

/-- The field-by-field overwrite performed by PUT /api/v1/users/:id on the
found user object; `id` is never assigned. -/
def applyUserBody (b : UserBody) (u : User) : User :=
  { u with
    username := b.username.getD "", firstName := b.firstName.getD "",
    lastName := b.lastName.getD "", email := b.email.getD "",
    password := b.password.getD "", phone := b.phone.getD "",
    userStatus := userStatusOrOne b.userStatus }

/-- Handler GET /api/v1/users/:id of main.js. -/
def getUser (seg : String) (users : List User) : UserRes :=
  match users.find? (fun u => idMatches (jsParseInt seg) u.id) with
  | none => .msg 404 "User not found"
  | some u => .entity 200 u

/-- Handler POST /api/v1/users of main.js. -/
def postUser (b : UserBody) (users : List User) : UserRes × List User :=
  if validUserBody b then
    (.entity 201 (mkNewUser b users.length), users ++ [mkNewUser b users.length])
  else
    (.msg 400 "All fields are required", users)

/-- Handler PUT /api/v1/users/:id of main.js: existence is checked before
validation, then the found user is overwritten in place. -/
def putUser (seg : String) (b : UserBody) (users : List User) :
    UserRes × List User :=
  match users.find? (fun u => idMatches (jsParseInt seg) u.id) with
  | none => (.msg 404 "User not found", users)
  | some u =>
    if validUserBody b then
      (.entity 200 (applyUserBody b u),
       updateFirst (fun v => idMatches (jsParseInt seg) v.id) (applyUserBody b) users)
    else
      (.msg 400 "All fields are required", users)

/-- Handler DELETE /api/v1/users/:id of main.js: `findIndex` then `splice`. -/
def deleteUser (seg : String) (users : List User) : UserRes × List User :=
  match findIdxF (fun u => idMatches (jsParseInt seg) u.id) users with
  | none => (.msg 404 "User not found", users)
  | some i => (.msg 200 "User deleted", spliceAt users i)

/-! ### Items collection (main.js) -/

/-- A stored item record of main.js (the field is spelled `discription` in the
source). -/
structure Item where
  id : Int
  name : String
  discription : String
deriving DecidableEq

/-- The JSON body of an item create/update request of main.js. -/
structure ItemBody where
  name : Option String
  discription : Option String
deriving DecidableEq

/-- Response of an item handler of main.js. -/
inductive ItemRes where
  | entity (code : Nat) (it : Item)
  | msg (code : Nat) (message : String)
deriving DecidableEq

/-- The two seeded items of main.js. -/
def itemsSeed : List Item :=
  [{ id := 1, name := "Item 1", discription := "product info" },
   { id := 2, name := "Item 2", discription := "product info" }]

/-- The validation guard of the item POST and PUT handlers of main.js. -/
def validItemBody (b : ItemBody) : Bool :=
  truthyStr b.name && truthyStr b.discription

/-- The object literal built by POST /api/v1/items from a body, given the
current collection length `n`. -/
def mkNewItem (b : ItemBody) (n : Nat) : Item :=
  { id := (n : Int) + 1, name := b.name.getD "", discription := b.discription.getD "" }

/-- The field-by-field overwrite performed by PUT /api/v1/items/:id. -/
def applyItemBody (b : ItemBody) (it : Item) : Item :=
  { it with name := b.name.getD "", discription := b.discription.getD "" }

/-- Handler GET /api/v1/items/:id of main.js. -/
def getItem (seg : String) (items : List Item) : ItemRes :=
  match items.find? (fun it => idMatches (jsParseInt seg) it.id) with
  | none => .msg 404 "Item not found"
  | some it => .entity 200 it

/-- Handler POST /api/v1/items of main.js (its message reads
"All fields is required" in the source). -/
def postItem (b : ItemBody) (items : List Item) : ItemRes × List Item :=
  if validItemBody b then
    (.entity 201 (mkNewItem b items.length), items ++ [mkNewItem b items.length])
  else
    (.msg 400 "All fields is required", items)

/-- Handler PUT /api/v1/items/:id of main.js. -/
def putItem (seg : String) (b : ItemBody) (items : List Item) :
    ItemRes × List Item :=
  match items.find? (fun it => idMatches (jsParseInt seg) it.id) with
  | none => (.msg 404 "Item not found", items)
  | some it =>
    if validItemBody b then
      (.entity 200 (applyItemBody b it),
       updateFirst (fun j => idMatches (jsParseInt seg) j.id) (applyItemBody b) items)
    else
      (.msg 400 "All fields is required", items)

/-- Handler DELETE /api/v1/items/:id of main.js. -/
def deleteItem (seg : String) (items : List Item) : ItemRes × List Item :=
  match findIdxF (fun it => idMatches (jsParseInt seg) it.id) items with
  | none => (.msg 404 "Item not found", items)
  | some i => (.msg 200 "Item deleted", spliceAt items i)

/-! ### Items collection (index.js variant) -/

/-- A stored item record of index.js (no description field). -/
structure ItemX where
  id : Int
  name : String
deriving DecidableEq

/-- Response of an item handler of index.js. -/
inductive ItemXRes where
  | entity (code : Nat) (it : ItemX)
  | msg (code : Nat) (message : String)
deriving DecidableEq

/-- The two seeded items of index.js. -/
def itemsSeedX : List ItemX :=
  [{ id := 1, name := "Item 1" }, { id := 2, name := "Item 2" }]

/-- The literal path at which the index.js get-by-id handler is registered. -/
def indexItemsGetPath : String := "/api/v1/items/get"

/-- The literal path at which the index.js update handler is registered. -/
def indexItemsPutPath : String := "/api/v1/items/put"

/-- `parseInt(req.params.id, 10)` where the id parameter may be undefined
(`none`): `parseInt(undefined, 10)` is NaN. -/
def jsParseIntParam : Option String → Option Int
  | none => none
  | some s => jsParseInt s

/-- Handler registered at `/api/v1/items/get` in index.js. Because the path
declares no `:id` parameter, express invokes it with `req.params.id`
undefined, i.e. `idParam = none`. -/
def indexGetItem (idParam : Option String) (items : List ItemX) : ItemXRes :=
  match items.find? (fun it => idMatches (jsParseIntParam idParam) it.id) with
  | none => .msg 404 "Item not found"
  | some it => .entity 200 it

/-- Handler registered at `/api/v1/items/put` in index.js; likewise invoked
with `idParam = none`. -/
def indexPutItem (idParam : Option String) (nameField : Option String)
    (items : List ItemX) : ItemXRes × List ItemX :=
  match items.find? (fun it => idMatches (jsParseIntParam idParam) it.id) with
  | none => (.msg 404 "Item not found", items)
  | some it =>
    if truthyStr nameField then
      (.entity 200 { it with name := nameField.getD "" },
       updateFirst (fun j => idMatches (jsParseIntParam idParam) j.id)
         (fun j => { j with name := nameField.getD "" }) items)
    else
      (.msg 400 "Name is required", items)

/-! ### Request sequences used by the invariants -/

/-- A fully-populated user body whose string fields all hold `s`. -/
def mkBody (s : String) : UserBody :=
  { username := some s, firstName := some s, lastName := some s,
    email := some s, password := some s, phone := some s, userStatus := some 1 }

/-- The users store after `n` identical valid creates on the seed. -/
def usersAfterN : Nat → List User
  | 0 => usersSeed
  | n + 1 => (postUser (mkBody "u") (usersAfterN n)).2

/-- Apply a sequence of user create requests, threading the store. -/
def applyUserPosts (bs : List UserBody) (users : List User) : List User :=
  bs.foldl (fun s b => (postUser b s).2) users

/-- Apply a sequence of item create requests, threading the store. -/
def applyItemPosts (bs : List ItemBody) (items : List Item) : List Item :=
  bs.foldl (fun s b => (postItem b s).2) items

/-- Well-formedness of a list of ids under which size-based id assignment is
collision-free: pairwise distinct, and no id exceeds the collection size. -/
abbrev IdsOk (ids : List Int) : Prop :=
  ids.Nodup ∧ ∀ i ∈ ids, i ≤ (ids.length : Int)

/-- The item body of Scenario B. -/
def widgetBody : ItemBody := { name := some "Widget", discription := some "x" }

/-- The user created by the 9th consecutive valid POST on the seeded users
store: its assigned id is 10, the seed user's id. -/
def ninthCreatedUser : User := mkNewUser (mkBody "u") 9

/-! ### Generic lemmas about the list operations -/

theorem updateFirst_length {α : Type} (p : α → Bool) (f : α → α) :
    ∀ l : List α, (updateFirst p f l).length = l.length
  | [] => rfl
  | x :: xs => by
    by_cases h : p x
    · simp [updateFirst, h]
    · simp [updateFirst, h, updateFirst_length p f xs]

theorem findIdxF_all_false {α : Type} {p : α → Bool} :
    ∀ {l : List α}, (∀ x ∈ l, p x = false) → findIdxF p l = none
  | [], _ => rfl
  | x :: xs, h => by
    have hx : p x = false := h x (List.mem_cons_self x xs)
    have hxs : findIdxF p xs = none :=
      findIdxF_all_false (fun y hy => h y (List.mem_cons_of_mem x hy))
    simp [findIdxF, hx, hxs]

theorem findIdxF_lt_length {α : Type} {p : α → Bool} :
    ∀ {l : List α} {i : Nat}, findIdxF p l = some i → i < l.length
  | x :: xs, i, h => by
    by_cases hx : p x
    · simp [findIdxF, hx] at h
      simp [List.length_cons]
      omega
    · simp [findIdxF, hx] at h
      obtain ⟨j, hj, rfl⟩ := h
      have := findIdxF_lt_length (l := xs) hj
      simp [List.length_cons]
      omega

theorem findIdxF_of_mem {α : Type} {p : α → Bool} :
    ∀ {l : List α} {x : α}, x ∈ l → p x = true → ∃ i, findIdxF p l = some i
  | y :: ys, x, hm, hp => by
    by_cases hy : p y
    · exact ⟨0, by simp [findIdxF, hy]⟩
    · rcases List.mem_cons.mp hm with rfl | hm'
      · exact absurd hp (by simp [hy])
      · obtain ⟨j, hj⟩ := findIdxF_of_mem hm' hp
        exact ⟨j + 1, by simp [findIdxF, hy, hj]⟩

theorem findIdxF_get {α : Type} {p : α → Bool} :
    ∀ {l : List α} {i : Nat}, findIdxF p l = some i →
      ∃ x, l[i]? = some x ∧ p x = true ∧ l.find? p = some x
  | y :: ys, i, h => by
    by_cases hy : p y
    · simp [findIdxF, hy] at h
      exact ⟨y, by simp [← h], hy, by simp [List.find?_cons_of_pos _ hy]⟩
    · simp [findIdxF, hy] at h
      obtain ⟨j, hj, rfl⟩ := h
      obtain ⟨x, hget, hp, hfind⟩ := findIdxF_get (l := ys) hj
      exact ⟨x, by simpa using hget, hp, by simp [List.find?_cons_of_neg _ hy, hfind]⟩

theorem updateFirst_getElem_ne {α : Type} {p : α → Bool} (f : α → α) :
    ∀ {l : List α} {i : Nat}, findIdxF p l = some i →
      ∀ j, j ≠ i → (updateFirst p f l)[j]? = l[j]?
  | y :: ys, i, h, j, hj => by
    by_cases hy : p y
    · simp [findIdxF, hy] at h
      subst h
      match j, hj with
      | j + 1, _ => simp [updateFirst, hy]
    · simp [findIdxF, hy] at h
      obtain ⟨k, hk, rfl⟩ := h
      match j with
      | 0 => simp [updateFirst, hy]
      | j + 1 =>
        have hjk : j ≠ k := by omega
        have := updateFirst_getElem_ne f (l := ys) hk j hjk
        simp [updateFirst, hy, this]

theorem updateFirst_getElem_eq {α : Type} {p : α → Bool} (f : α → α) :
    ∀ {l : List α} {i : Nat}, findIdxF p l = some i →
      ∃ x, l[i]? = some x ∧ (updateFirst p f l)[i]? = some (f x)
  | y :: ys, i, h => by
    by_cases hy : p y
    · simp [findIdxF, hy] at h
      subst h
      exact ⟨y, by simp, by simp [updateFirst, hy]⟩
    · simp [findIdxF, hy] at h
      obtain ⟨k, hk, rfl⟩ := h
      obtain ⟨x, hget, hup⟩ := updateFirst_getElem_eq f (l := ys) hk
      exact ⟨x, by simpa using hget, by simpa [updateFirst, hy] using hup⟩

theorem find?_updateFirst {α : Type} {p : α → Bool} {f : α → α}
    (hp : ∀ x, p (f x) = p x) :
    ∀ {l : List α} {u : α}, l.find? p = some u →
      (updateFirst p f l).find? p = some (f u)
  | x :: xs, u, h => by
    by_cases hx : p x
    · rw [List.find?_cons_of_pos _ hx] at h
      obtain rfl : x = u := by injection h
      have hfx : p (f x) = true := by rw [hp]; exact hx
      have h1 : updateFirst p f (x :: xs) = f x :: xs := by simp [updateFirst, hx]
      rw [h1, List.find?_cons_of_pos _ hfx]
    · rw [List.find?_cons_of_neg _ hx] at h
      have hrec := find?_updateFirst hp (l := xs) h
      have h1 : updateFirst p f (x :: xs) = x :: updateFirst p f xs := by
        simp [updateFirst, hx]
      rw [h1, List.find?_cons_of_neg _ hx, hrec]

theorem updateFirst_idem {α : Type} {p : α → Bool} {f : α → α}
    (hp : ∀ x, p (f x) = p x) (hf : ∀ x, f (f x) = f x) :
    ∀ l : List α, updateFirst p f (updateFirst p f l) = updateFirst p f l
  | [] => rfl
  | x :: xs => by
    by_cases hx : p x
    · have hfx : p (f x) = true := by rw [hp]; exact hx
      simp [updateFirst, hx, hfx, hf]
    · simp [updateFirst, hx, updateFirst_idem hp hf xs]

theorem spliceAt_length {α : Type} :
    ∀ {l : List α} {i : Nat}, i < l.length → (spliceAt l i).length + 1 = l.length
  | _ :: _, 0, _ => by simp [spliceAt]
  | x :: xs, i + 1, h => by
    have : i < xs.length := by simpa using h
    simpa [spliceAt] using spliceAt_length this

theorem spliceAt_sublist {α : Type} :
    ∀ (l : List α) (i : Nat), List.Sublist (spliceAt l i) l
  | [], _ => List.Sublist.refl []
  | _ :: xs, 0 => List.sublist_cons_self _ xs
  | x :: xs, i + 1 => List.Sublist.cons₂ x (spliceAt_sublist xs i)

theorem countP_le_one_of_nodup_map {α : Type} (g : α → Int) (c : Int) :
    ∀ {l : List α}, (l.map g).Nodup → l.countP (fun x => g x == c) ≤ 1
  | [], _ => by simp
  | x :: xs, h => by
    have hnd : (xs.map g).Nodup := (List.nodup_cons.mp (by simpa using h)).2
    have hnm : g x ∉ xs.map g := (List.nodup_cons.mp (by simpa using h)).1
    by_cases hx : g x == c
    · have hc : g x = c := by simpa using hx
      have hzero : xs.countP (fun y => g y == c) = 0 := by
        rw [List.countP_eq_zero]
        intro y hy hyc
        exact hnm (hc ▸ (by simpa using hyc) ▸ List.mem_map_of_mem g hy)
      simp [List.countP_cons, hx, hzero]
    · have := countP_le_one_of_nodup_map g c hnd
      simp [List.countP_cons, hx]
      omega

theorem find?_spliceAt_of_countP_le_one {α : Type} {p : α → Bool} :
    ∀ {l : List α} {i : Nat}, l.countP p ≤ 1 → findIdxF p l = some i →
      (spliceAt l i).find? p = none
  | x :: xs, i, hc, hi => by
    by_cases hx : p x
    · simp [findIdxF, hx] at hi
      have hcount : List.countP p (x :: xs) = xs.countP p + 1 := by
        rw [List.countP_cons]
        simp [hx]
      have hzero : xs.countP p = 0 := by omega
      subst hi
      rw [List.find?_eq_none]
      intro y hy
      have hmem : y ∈ xs := by simpa [spliceAt] using hy
      exact List.countP_eq_zero.mp hzero y hmem
    · simp [findIdxF, hx] at hi
      obtain ⟨k, hk, rfl⟩ := hi
      have hcount : List.countP p (x :: xs) = xs.countP p := by
        rw [List.countP_cons]
        simp [hx]
      have hc' : xs.countP p ≤ 1 := by omega
      have hrec := find?_spliceAt_of_countP_le_one hc' hk
      have hsp : spliceAt (x :: xs) (k + 1) = x :: spliceAt xs k := rfl
      rw [hsp, List.find?_cons_of_neg _ hx, hrec]

theorem find?_append_singleton {α : Type} {p : α → Bool} {a : α}
    (ha : p a = true) :
    ∀ {l : List α}, (∀ x ∈ l, p x = false) → (l ++ [a]).find? p = some a
  | [], _ => by rw [List.nil_append, List.find?_cons_of_pos _ ha]
  | x :: xs, h => by
    have hx : p x = false := h x (List.mem_cons_self x xs)
    have hrec := find?_append_singleton ha (l := xs)
      (fun y hy => h y (List.mem_cons_of_mem x hy))
    rw [List.cons_append, List.find?_cons_of_neg _ (by simp [hx]), hrec]

/-! ### The size-based id assignment invariant -/

theorem idsOk_append {ids : List Int} (h : IdsOk ids) :
    IdsOk (ids ++ [(ids.length : Int) + 1]) := by
  constructor
  · refine List.Nodup.append h.1 (List.nodup_singleton _) ?_
    intro x hx hx'
    have hxval : x = (ids.length : Int) + 1 := by simpa using hx'
    have := h.2 x hx
    omega
  · intro i hi
    rcases List.mem_append.mp hi with hold | hnew
    · have := h.2 i hold
      simp [List.length_append]
      omega
    · have : i = (ids.length : Int) + 1 := by simpa using hnew
      simp [List.length_append]
      omega

theorem postUser_snd_map_id (b : UserBody) (users : List User) :
    (postUser b users).2.map (fun u => u.id) =
      if validUserBody b then
        users.map (fun u => u.id) ++ [(users.length : Int) + 1]
      else users.map (fun u => u.id) := by
  by_cases h : validUserBody b
  · simp [postUser, h, mkNewUser]
  · simp [postUser, h]

theorem postItem_snd_map_id (b : ItemBody) (items : List Item) :
    (postItem b items).2.map (fun it => it.id) =
      if validItemBody b then
        items.map (fun it => it.id) ++ [(items.length : Int) + 1]
      else items.map (fun it => it.id) := by
  by_cases h : validItemBody b
  · simp [postItem, h, mkNewItem]
  · simp [postItem, h]

theorem applyUserPosts_idsOk :
    ∀ (bs : List UserBody) (users : List User),
      IdsOk (users.map (fun u => u.id)) →
      IdsOk ((applyUserPosts bs users).map (fun u => u.id))
  | [], users, h => h
  | b :: bs, users, h => by
    have hstep : IdsOk ((postUser b users).2.map (fun u => u.id)) := by
      rw [postUser_snd_map_id]
      by_cases hv : validUserBody b
      · simp only [hv, if_true]
        have := idsOk_append h
        simpa [List.length_map] using this
      · simpa [hv] using h
    have hrec := applyUserPosts_idsOk bs (postUser b users).2 hstep
    simpa [applyUserPosts] using hrec

theorem applyItemPosts_idsOk :
    ∀ (bs : List ItemBody) (items : List Item),
      IdsOk (items.map (fun it => it.id)) →
      IdsOk ((applyItemPosts bs items).map (fun it => it.id))
  | [], items, h => h
  | b :: bs, items, h => by
    have hstep : IdsOk ((postItem b items).2.map (fun it => it.id)) := by
      rw [postItem_snd_map_id]
      by_cases hv : validItemBody b
      · simp only [hv, if_true]
        have := idsOk_append h
        simpa [List.length_map] using this
      · simpa [hv] using h
    have hrec := applyItemPosts_idsOk bs (postItem b items).2 hstep
    simpa [applyItemPosts] using hrec

/-! ### Claim theorems -/

/-- C1, counterexample: the claim fails as stated. Nine valid create
requests, with no deletions, applied to the seeded users store yield the id
list [10, 2, 3, 4, 5, 6, 7, 8, 9, 10]: the ninth created user is assigned
id 10, colliding with the seed user's id. -/
theorem create_id_collision_after_nine_creates :
    validUserBody (mkBody "u") = true ∧
    (usersAfterN 9).map (fun u => u.id) = [10, 2, 3, 4, 5, 6, 7, 8, 9, 10] ∧
    ¬ ((usersAfterN 9).map (fun u => u.id)).Nodup := by
  refine ⟨by decide, by decide, by decide⟩

/-- C1, amended: for every sequence of create operations with no deletions,
applied to a store whose initial collection has pairwise-distinct ids each at
most the collection size (true of the seeded items collection, whose ids are
1 and 2, but not of the seeded users collection, whose only entity has
id 10), the ids of all entities in the resulting collection are pairwise
distinct. -/
theorem create_ids_pairwise_distinct :
    (∀ (bs : List UserBody) (users : List User),
       IdsOk (users.map (fun u => u.id)) →
       ((applyUserPosts bs users).map (fun u => u.id)).Nodup) ∧
    (∀ (bs : List ItemBody) (items : List Item),
       IdsOk (items.map (fun it => it.id)) →
       ((applyItemPosts bs items).map (fun it => it.id)).Nodup) :=
  ⟨fun bs users h => (applyUserPosts_idsOk bs users h).1,
   fun bs items h => (applyItemPosts_idsOk bs items h).1⟩

/-- Witness for the amended C1: two creates on the seeded items collection
keep the ids pairwise distinct. -/
theorem create_ids_pairwise_distinct_w :
    ((applyItemPosts [widgetBody, widgetBody] itemsSeed).map
       (fun it => it.id)).Nodup :=
  create_ids_pairwise_distinct.2 [widgetBody, widgetBody] itemsSeed (by decide)

/-- C2, counterexample: the round trip fails as stated. After eight valid
creates on the seeded users store, the ninth create returns a user with
assigned id 10, but an immediate GET of id 10 responds 200 with the seed
user — the first entity bearing id 10 — not the newly created one. -/
theorem user_create_then_get_roundtrip_cex :
    validUserBody (mkBody "u") = true ∧
    (postUser (mkBody "u") (usersAfterN 8)).1 =
      UserRes.entity 201 ninthCreatedUser ∧
    jsParseInt "10" = some ninthCreatedUser.id ∧
    getUser "10" (postUser (mkBody "u") (usersAfterN 8)).2 =
      UserRes.entity 200 seedUser ∧
    seedUser ≠ ninthCreatedUser := by
  refine ⟨by decide, by decide, by decide, by decide, by decide⟩

/-- C2, amended: for every valid create request, creating the entity and then
immediately fetching it by the returned id responds 200 with a value equal to
the input fields plus the assigned id (including the stored userStatus),
provided no entity already in the collection bears the id the create will
assign (collection size + 1). -/
theorem user_create_then_get_roundtrip (b : UserBody) (users : List User)
    (seg : String)
    (hv : validUserBody b = true)
    (hfree : ∀ u ∈ users, u.id ≠ (users.length : Int) + 1)
    (hseg : jsParseInt seg = some ((users.length : Int) + 1)) :
    postUser b users =
      (UserRes.entity 201 (mkNewUser b users.length),
       users ++ [mkNewUser b users.length]) ∧
    getUser seg (postUser b users).2 =
      UserRes.entity 200 (mkNewUser b users.length) ∧
    (mkNewUser b users.length).id = (users.length : Int) + 1 ∧
    (mkNewUser b users.length).username = b.username.getD "" ∧
    (mkNewUser b users.length).firstName = b.firstName.getD "" ∧
    (mkNewUser b users.length).lastName = b.lastName.getD "" ∧
    (mkNewUser b users.length).email = b.email.getD "" ∧
    (mkNewUser b users.length).password = b.password.getD "" ∧
    (mkNewUser b users.length).phone = b.phone.getD "" ∧
    (mkNewUser b users.length).userStatus = userStatusOrOne b.userStatus := by
  have hsnd : (postUser b users).2 = users ++ [mkNewUser b users.length] := by
    simp [postUser, hv]
  refine ⟨by simp [postUser, hv], ?_, rfl, rfl, rfl, rfl, rfl, rfl, rfl, rfl⟩
  rw [hsnd]
  have hfind : ((users ++ [mkNewUser b users.length]).find?
      (fun u => idMatches (jsParseInt seg) u.id)) =
      some (mkNewUser b users.length) := by
    apply find?_append_singleton
    · simp [hseg, idMatches, mkNewUser]
    · intro x hx
      simp [hseg, idMatches]
      exact hfree x hx
  simp [getUser, hfind]

/-- Witness for the amended C2 at the seeded users store: creating a valid
user and fetching id 2 returns the created record. -/
theorem user_create_then_get_roundtrip_w :
    postUser (mkBody "w") usersSeed =
      (UserRes.entity 201 (mkNewUser (mkBody "w") 1),
       usersSeed ++ [mkNewUser (mkBody "w") 1]) ∧
    getUser "2" (postUser (mkBody "w") usersSeed).2 =
      UserRes.entity 200 (mkNewUser (mkBody "w") 1) := by
  have h := user_create_then_get_roundtrip (mkBody "w") usersSeed "2"
    (by decide) (by decide) (by decide)
  exact ⟨h.1, h.2.1⟩

/-- C3: applying the same valid PUT payload twice to an existing entity
leaves exactly the same final store state as applying it once, for the users
and the items collection of main.js. -/
theorem update_idempotent (seg : String) (b : UserBody) (users : List User)
    (iseg : String) (ib : ItemBody) (items : List Item)
    (hex : (users.find? (fun u => idMatches (jsParseInt seg) u.id)).isSome = true)
    (hv : validUserBody b = true)
    (hiex : (items.find? (fun it => idMatches (jsParseInt iseg) it.id)).isSome = true)
    (hiv : validItemBody ib = true) :
    (putUser seg b (putUser seg b users).2).2 = (putUser seg b users).2 ∧
    (putItem iseg ib (putItem iseg ib items).2).2 = (putItem iseg ib items).2 := by
  constructor
  · obtain ⟨u, hu⟩ := Option.isSome_iff_exists.mp hex
    have hp : ∀ x : User, idMatches (jsParseInt seg) (applyUserBody b x).id =
        idMatches (jsParseInt seg) x.id := fun _ => rfl
    have hf : ∀ x : User, applyUserBody b (applyUserBody b x) = applyUserBody b x :=
      fun _ => rfl
    have hsnd : (putUser seg b users).2 =
        updateFirst (fun v => idMatches (jsParseInt seg) v.id)
          (applyUserBody b) users := by
      simp [putUser, hu, hv]
    have hfind2 := find?_updateFirst (p := fun v => idMatches (jsParseInt seg) v.id)
      (f := applyUserBody b) hp hu
    rw [hsnd]
    have hidem := updateFirst_idem (p := fun v => idMatches (jsParseInt seg) v.id)
      (f := applyUserBody b) hp hf users
    simp [putUser, hfind2, hv, hidem]
  · obtain ⟨it, hit⟩ := Option.isSome_iff_exists.mp hiex
    have hp : ∀ x : Item, idMatches (jsParseInt iseg) (applyItemBody ib x).id =
        idMatches (jsParseInt iseg) x.id := fun _ => rfl
    have hf : ∀ x : Item, applyItemBody ib (applyItemBody ib x) = applyItemBody ib x :=
      fun _ => rfl
    have hsnd : (putItem iseg ib items).2 =
        updateFirst (fun j => idMatches (jsParseInt iseg) j.id)
          (applyItemBody ib) items := by
      simp [putItem, hit, hiv]
    have hfind2 := find?_updateFirst (p := fun j => idMatches (jsParseInt iseg) j.id)
      (f := applyItemBody ib) hp hit
    rw [hsnd]
    have hidem := updateFirst_idem (p := fun j => idMatches (jsParseInt iseg) j.id)
      (f := applyItemBody ib) hp hf items
    simp [putItem, hfind2, hiv, hidem]

/-- Witness for C3 at the seeds: updating user 10 and item 1 twice equals
updating them once. -/
theorem update_idempotent_w :
    (putUser "10" (mkBody "w") (putUser "10" (mkBody "w") usersSeed).2).2 =
      (putUser "10" (mkBody "w") usersSeed).2 ∧
    (putItem "1" widgetBody (putItem "1" widgetBody itemsSeed).2).2 =
      (putItem "1" widgetBody itemsSeed).2 :=
  update_idempotent "10" (mkBody "w") usersSeed "1" widgetBody itemsSeed
    (by decide) (by decide) (by decide) (by decide)

/-- C4, counterexample: the claim fails as stated on a reachable store. After
nine valid creates on the seeded users store two entities bear id 10; a
DELETE of id 10 removes only the first of them, so the store size drops by
exactly one yet the subsequent GET of id 10 still responds 200, not 404. -/
theorem delete_then_get_cex :
    ((usersAfterN 9).map (fun u => u.id)).contains 10 = true ∧
    (deleteUser "10" (usersAfterN 9)).2.length + 1 = (usersAfterN 9).length ∧
    getUser "10" (deleteUser "10" (usersAfterN 9)).2 ≠
      UserRes.msg 404 "User not found" := by
  refine ⟨by decide, by decide, by decide⟩

/-- C4, amended: for every id X present in a collection whose ids are
pairwise distinct (as the seeded collections are), a DELETE of X responds
200, reduces the collection size by exactly 1, preserves the relative order
of the remaining entities (the result is a sublist), and a subsequent GET by
id X returns 404; without the distinctness proviso the GET clause fails on a
reachable duplicate-id store. -/
theorem delete_removes_exactly_one (seg : String) (x : Int) (users : List User)
    (iseg : String) (y : Int) (items : List Item)
    (hseg : jsParseInt seg = some x)
    (hmem : ∃ u ∈ users, u.id = x)
    (hnd : (users.map (fun u => u.id)).Nodup)
    (hiseg : jsParseInt iseg = some y)
    (himem : ∃ it ∈ items, it.id = y)
    (hind : (items.map (fun it => it.id)).Nodup) :
    (deleteUser seg users).1 = UserRes.msg 200 "User deleted" ∧
    (deleteUser seg users).2.length + 1 = users.length ∧
    List.Sublist (deleteUser seg users).2 users ∧
    getUser seg (deleteUser seg users).2 = UserRes.msg 404 "User not found" ∧
    (deleteItem iseg items).1 = ItemRes.msg 200 "Item deleted" ∧
    (deleteItem iseg items).2.length + 1 = items.length ∧
    List.Sublist (deleteItem iseg items).2 items ∧
    getItem iseg (deleteItem iseg items).2 = ItemRes.msg 404 "Item not found" := by
  obtain ⟨u, hu, hid⟩ := hmem
  obtain ⟨it, hit, hiid⟩ := himem
  have hpu : (fun v : User => idMatches (jsParseInt seg) v.id) u = true := by
    simp [hseg, idMatches, hid]
  have hpi : (fun j : Item => idMatches (jsParseInt iseg) j.id) it = true := by
    simp [hiseg, idMatches, hiid]
  obtain ⟨i, hi⟩ := findIdxF_of_mem
    (p := fun v : User => idMatches (jsParseInt seg) v.id) hu hpu
  obtain ⟨k, hk⟩ := findIdxF_of_mem
    (p := fun j : Item => idMatches (jsParseInt iseg) j.id) hit hpi
  have hsnd : (deleteUser seg users).2 = spliceAt users i := by
    simp [deleteUser, hi]
  have hisnd : (deleteItem iseg items).2 = spliceAt items k := by
    simp [deleteItem, hk]
  have hcu : users.countP (fun v => idMatches (jsParseInt seg) v.id) ≤ 1 := by
    have h1 := countP_le_one_of_nodup_map (fun u : User => u.id) x hnd
    simpa [hseg, idMatches] using h1
  have hci : items.countP (fun j => idMatches (jsParseInt iseg) j.id) ≤ 1 := by
    have h1 := countP_le_one_of_nodup_map (fun it : Item => it.id) y hind
    simpa [hiseg, idMatches] using h1
  have hnone := find?_spliceAt_of_countP_le_one hcu hi
  have hinone := find?_spliceAt_of_countP_le_one hci hk
  refine ⟨by simp [deleteUser, hi], ?_, ?_, ?_, by simp [deleteItem, hk], ?_, ?_, ?_⟩
  · rw [hsnd]
    exact spliceAt_length (findIdxF_lt_length hi)
  · rw [hsnd]
    exact spliceAt_sublist users i
  · rw [hsnd]
    simp [getUser, hnone]
  · rw [hisnd]
    exact spliceAt_length (findIdxF_lt_length hk)
  · rw [hisnd]
    exact spliceAt_sublist items k
  · rw [hisnd]
    simp [getItem, hinone]

/-- Witness for the amended C4 at the seeds: deleting user 10 and item 1. -/
theorem delete_removes_exactly_one_w :
    (deleteUser "10" usersSeed).1 = UserRes.msg 200 "User deleted" ∧
    (deleteUser "10" usersSeed).2.length + 1 = usersSeed.length ∧
    getUser "10" (deleteUser "10" usersSeed).2 = UserRes.msg 404 "User not found" ∧
    getItem "1" (deleteItem "1" itemsSeed).2 = ItemRes.msg 404 "Item not found" := by
  obtain ⟨h1, h2, -, h4, -, -, -, h8⟩ :=
    delete_removes_exactly_one "10" 10 usersSeed "1" 1 itemsSeed
      (by decide) (by decide) (by decide) (by decide) (by decide) (by decide)
  exact ⟨h1, h2, h4, h8⟩

/-- C5: a POST, or a PUT whose target id exists, with any required field
absent or empty responds 400 with the handler's message object and leaves the
store unchanged, for the users and items collections of main.js. -/
theorem invalid_body_rejected (b : UserBody) (seg : String) (users : List User)
    (ib : ItemBody) (iseg : String) (items : List Item)
    (hb : validUserBody b = false)
    (hex : (users.find? (fun u => idMatches (jsParseInt seg) u.id)).isSome = true)
    (hib : validItemBody ib = false)
    (hiex : (items.find? (fun it => idMatches (jsParseInt iseg) it.id)).isSome = true) :
    postUser b users = (UserRes.msg 400 "All fields are required", users) ∧
    putUser seg b users = (UserRes.msg 400 "All fields are required", users) ∧
    postItem ib items = (ItemRes.msg 400 "All fields is required", items) ∧
    putItem iseg ib items = (ItemRes.msg 400 "All fields is required", items) := by
  obtain ⟨u, hu⟩ := Option.isSome_iff_exists.mp hex
  obtain ⟨it, hit⟩ := Option.isSome_iff_exists.mp hiex
  exact ⟨by simp [postUser, hb], by simp [putUser, hu, hb],
    by simp [postItem, hib], by simp [putItem, hit, hib]⟩

/-- Witness for C5: a user body missing its username and an item body with an
empty discription are rejected with 400 and the seeds are unchanged. -/
theorem invalid_body_rejected_w :
    postUser { mkBody "u" with username := none } usersSeed =
      (UserRes.msg 400 "All fields are required", usersSeed) ∧
    putUser "10" { mkBody "u" with username := none } usersSeed =
      (UserRes.msg 400 "All fields are required", usersSeed) ∧
    postItem { name := some "Widget", discription := some "" } itemsSeed =
      (ItemRes.msg 400 "All fields is required", itemsSeed) ∧
    putItem "1" { name := some "Widget", discription := some "" } itemsSeed =
      (ItemRes.msg 400 "All fields is required", itemsSeed) :=
  invalid_body_rejected { mkBody "u" with username := none } "10" usersSeed
    { name := some "Widget", discription := some "" } "1" itemsSeed
    (by decide) (by decide) (by decide) (by decide)

/-- C6: a valid item create assigns id collectionSize + 1, appends the new
entity at the end of the collection, and responds 201 with it; instantiated
below at Scenario B. -/
theorem item_create_assigns_size_plus_one (ib : ItemBody) (items : List Item)
    (hv : validItemBody ib = true) :
    postItem ib items =
      (ItemRes.entity 201 (mkNewItem ib items.length),
       items ++ [mkNewItem ib items.length]) ∧
    (mkNewItem ib items.length).id = (items.length : Int) + 1 :=
  ⟨by simp [postItem, hv], rfl⟩

/-- Witness for C6, Scenario B: POSTing name Widget, discription x against
the two-item seed returns 201 with id 3 and appends the new item. -/
theorem item_create_assigns_size_plus_one_w :
    postItem widgetBody itemsSeed =
      (ItemRes.entity 201 { id := 3, name := "Widget", discription := "x" },
       itemsSeed ++ [{ id := 3, name := "Widget", discription := "x" }]) :=
  ((item_create_assigns_size_plus_one widgetBody itemsSeed (by decide)).1).trans
    (by decide)

/-- C7: a GET, PUT or DELETE whose id path segment is non-numeric (parseInt
yields NaN) matches no entity: the handler responds 404 and the store is
unchanged, for the users and items collections of main.js. -/
theorem nonnumeric_segment_not_found (seg : String) (users : List User)
    (b : UserBody) (items : List Item) (ib : ItemBody)
    (h : jsParseInt seg = none) :
    getUser seg users = UserRes.msg 404 "User not found" ∧
    putUser seg b users = (UserRes.msg 404 "User not found", users) ∧
    deleteUser seg users = (UserRes.msg 404 "User not found", users) ∧
    getItem seg items = ItemRes.msg 404 "Item not found" ∧
    putItem seg ib items = (ItemRes.msg 404 "Item not found", items) ∧
    deleteItem seg items = (ItemRes.msg 404 "Item not found", items) := by
  have hfu : users.find? (fun u => idMatches (jsParseInt seg) u.id) = none := by
    rw [List.find?_eq_none]
    intro u _
    simp [h, idMatches]
  have hiu : findIdxF (fun u => idMatches (jsParseInt seg) u.id) users = none :=
    findIdxF_all_false (fun u _ => by simp [h, idMatches])
  have hfi : items.find? (fun it => idMatches (jsParseInt seg) it.id) = none := by
    rw [List.find?_eq_none]
    intro it _
    simp [h, idMatches]
  have hii : findIdxF (fun it => idMatches (jsParseInt seg) it.id) items = none :=
    findIdxF_all_false (fun it _ => by simp [h, idMatches])
  exact ⟨by simp [getUser, hfu], by simp [putUser, hfu], by simp [deleteUser, hiu],
    by simp [getItem, hfi], by simp [putItem, hfi], by simp [deleteItem, hii]⟩

/-- Witness for C7 at the non-numeric segment "abc" on the seeds. -/
theorem nonnumeric_segment_not_found_w :
    getUser "abc" usersSeed = UserRes.msg 404 "User not found" ∧
    putUser "abc" (mkBody "u") usersSeed =
      (UserRes.msg 404 "User not found", usersSeed) ∧
    deleteUser "abc" usersSeed = (UserRes.msg 404 "User not found", usersSeed) ∧
    getItem "abc" itemsSeed = ItemRes.msg 404 "Item not found" ∧
    putItem "abc" widgetBody itemsSeed =
      (ItemRes.msg 404 "Item not found", itemsSeed) ∧
    deleteItem "abc" itemsSeed = (ItemRes.msg 404 "Item not found", itemsSeed) :=
  nonnumeric_segment_not_found "abc" usersSeed (mkBody "u") itemsSeed widgetBody
    (by decide)

/-- C8: for every valid user create or update, the stored userStatus is the
value of userStatus or-else 1: an absent or zero userStatus is stored as 1,
and a nonzero (truthy) userStatus is stored as given. -/
theorem userStatus_defaults_to_one (b : UserBody) (users : List User)
    (u : User) (seg : String)
    (hv : validUserBody b = true) :
    (postUser b users).2 = users ++ [mkNewUser b users.length] ∧
    (users.find? (fun v => idMatches (jsParseInt seg) v.id) = some u →
       (putUser seg b users).2 =
         updateFirst (fun v => idMatches (jsParseInt seg) v.id)
           (applyUserBody b) users) ∧
    ((b.userStatus = none ∨ b.userStatus = some 0) →
       (mkNewUser b users.length).userStatus = 1 ∧
       (applyUserBody b u).userStatus = 1) ∧
    (∀ n : Int, b.userStatus = some n → n ≠ 0 →
       (mkNewUser b users.length).userStatus = n ∧
       (applyUserBody b u).userStatus = n) := by
  refine ⟨by simp [postUser, hv], ?_, ?_, ?_⟩
  · intro hu
    simp [putUser, hu, hv]
  · rintro (h0 | h0) <;> simp [mkNewUser, applyUserBody, userStatusOrOne, h0]
  · intro n hn hnz
    constructor <;> simp [mkNewUser, applyUserBody, userStatusOrOne, hn, hnz]

/-- Witness for C8: a valid body whose userStatus field is absent yields a
stored userStatus of 1 both on create and on update of the seed user. -/
theorem userStatus_defaults_to_one_w :
    (mkNewUser { mkBody "u" with userStatus := none } 1).userStatus = 1 ∧
    (applyUserBody { mkBody "u" with userStatus := none } seedUser).userStatus = 1 :=
  (userStatus_defaults_to_one { mkBody "u" with userStatus := none } usersSeed
    seedUser "10" (by decide)).2.2.1 (Or.inl rfl)

/-- C9: a successful update overwrites only the mutable fields of the first
entity matching the id: that entity keeps its id, every other entity is
unchanged, and the collection's length (hence order) is unchanged, for the
users and items collections of main.js. -/
theorem update_frame (seg : String) (b : UserBody) (users : List User) (i : Nat)
    (iseg : String) (ib : ItemBody) (items : List Item) (k : Nat)
    (hv : validUserBody b = true)
    (hi : findIdxF (fun v => idMatches (jsParseInt seg) v.id) users = some i)
    (hiv : validItemBody ib = true)
    (hk : findIdxF (fun j => idMatches (jsParseInt iseg) j.id) items = some k) :
    ((putUser seg b users).2.length = users.length ∧
     (∀ j, j ≠ i → (putUser seg b users).2[j]? = users[j]?) ∧
     (∃ u, users[i]? = some u ∧
        (putUser seg b users).2[i]? = some (applyUserBody b u) ∧
        (applyUserBody b u).id = u.id)) ∧
    ((putItem iseg ib items).2.length = items.length ∧
     (∀ j, j ≠ k → (putItem iseg ib items).2[j]? = items[j]?) ∧
     (∃ it, items[k]? = some it ∧
        (putItem iseg ib items).2[k]? = some (applyItemBody ib it) ∧
        (applyItemBody ib it).id = it.id)) := by
  obtain ⟨u, hget, hp, hfind⟩ := findIdxF_get hi
  obtain ⟨it, higet, hip, hifind⟩ := findIdxF_get hk
  have hsnd : (putUser seg b users).2 =
      updateFirst (fun v => idMatches (jsParseInt seg) v.id)
        (applyUserBody b) users := by
    simp [putUser, hfind, hv]
  have hisnd : (putItem iseg ib items).2 =
      updateFirst (fun j => idMatches (jsParseInt iseg) j.id)
        (applyItemBody ib) items := by
    simp [putItem, hifind, hiv]
  constructor
  · rw [hsnd]
    refine ⟨updateFirst_length _ _ users,
      fun j hj => updateFirst_getElem_ne _ hi j hj, ?_⟩
    obtain ⟨u', hget', hup⟩ := updateFirst_getElem_eq (applyUserBody b) hi
    exact ⟨u', hget', hup, rfl⟩
  · rw [hisnd]
    refine ⟨updateFirst_length _ _ items,
      fun j hj => updateFirst_getElem_ne _ hk j hj, ?_⟩
    obtain ⟨it', hget', hup⟩ := updateFirst_getElem_eq (applyItemBody ib) hk
    exact ⟨it', hget', hup, rfl⟩

/-- Witness for C9 at the seeds: updating user 10 (index 0) and item 1
(index 0) preserves lengths and the entries at index 1. -/
theorem update_frame_w :
    (putUser "10" (mkBody "w") usersSeed).2.length = usersSeed.length ∧
    (putUser "10" (mkBody "w") usersSeed).2[1]? = usersSeed[1]? ∧
    (putItem "1" widgetBody itemsSeed).2[1]? = itemsSeed[1]? := by
  obtain ⟨⟨h1, h2, -⟩, -, h4, -⟩ :=
    update_frame "10" (mkBody "w") usersSeed 0 "1" widgetBody itemsSeed 0
      (by decide) (by decide) (by decide) (by decide)
  exact ⟨h1, h2 1 (by decide), h4 1 (by decide)⟩

/-- C10: in the index.js items variant, the get-by-id and update handlers are
registered at the literal paths /api/v1/items/get and /api/v1/items/put,
which declare no :id route parameter; their id lookup therefore receives an
undefined parameter (none), can never match any entity, and every request
reaching them is answered 404 with the message object, the store unchanged. -/
theorem index_literal_routes_always_not_found :
    indexItemsGetPath = "/api/v1/items/get" ∧
    indexItemsPutPath = "/api/v1/items/put" ∧
    indexItemsGetPath.toList.contains ':' = false ∧
    indexItemsPutPath.toList.contains ':' = false ∧
    (∀ items : List ItemX,
       indexGetItem none items = ItemXRes.msg 404 "Item not found") ∧
    (∀ (nameField : Option String) (items : List ItemX),
       indexPutItem none nameField items =
         (ItemXRes.msg 404 "Item not found", items)) := by
  refine ⟨rfl, rfl, by decide, by decide, ?_, ?_⟩
  · intro items
    have hf : items.find? (fun it => idMatches (jsParseIntParam none) it.id) = none := by
      rw [List.find?_eq_none]
      intro it _
      simp [jsParseIntParam, idMatches]
    simp [indexGetItem, hf]
  · intro nameField items
    have hf : items.find? (fun it => idMatches (jsParseIntParam none) it.id) = none := by
      rw [List.find?_eq_none]
      intro it _
      simp [jsParseIntParam, idMatches]
    simp [indexPutItem, hf]

end NodeCrud
